import Mathlib

/-!
Verification development for the secure SMS ingestion pipeline
(backend: crypto_service.py, storage_service.py, message_classifier.py,
template_manager.py, main.py).

Strings are embedded as lists of Unicode code points (`Str`); Python
`re` patterns used by the source are translated pattern-by-pattern into
decidable matchers over `Str`.  Inputs are assumed newline-free (SMS
text), so `.` in a pattern matches any character.  Confidence values
(Python floats 0.95, 0.9, ...) only ever appear as literal constants
that are compared for equality, so they are represented exactly as
naturals in hundredths (95, 90, ...).
-/

/-- Strings as lists of Unicode code points. -/
abbrev Str := List Nat

/-- Code points of a string literal. -/
def strOf (s : String) : Str := s.data.map Char.toNat

/-- Python regex `\d` (ASCII range, as all inputs are ASCII digits). -/
def isDigitCp (n : Nat) : Bool := 48 ≤ n && n ≤ 57

/-- Python regex word character `\w` restricted to ASCII: letter, digit or underscore. -/
def isWordCp (n : Nat) : Bool :=
  isDigitCp n || (65 ≤ n && n ≤ 90) || (97 ≤ n && n ≤ 122) || n == 95

/-- Python regex `\s`: space, tab, newline, vertical tab, form feed, carriage return. -/
def isSpaceCp (n : Nat) : Bool :=
  n == 32 || n == 9 || n == 10 || n == 11 || n == 12 || n == 13

/-- Python `str.lower` / `re.IGNORECASE` folding for ASCII letters. -/
def lowerCp (n : Nat) : Nat := if 65 ≤ n && n ≤ 90 then n + 32 else n

/-- Lower-case an embedded string (Python `message.lower()`). -/
def lowerStr (s : Str) : Str := s.map lowerCp

/-- Exact occurrence of `pat` at position `i` of `s` (case sensitive). -/
def isSubAt (pat s : Str) (i : Nat) : Bool :=
  decide (i + pat.length ≤ s.length) && ((s.drop i).take pat.length == pat)

/-- Occurrence of `pat` at position `i` of `s` up to ASCII case (re.IGNORECASE). -/
def isSubAtCI (pat s : Str) (i : Nat) : Bool :=
  isSubAt (lowerStr pat) (lowerStr s) i

/-- Python `pat in s` substring containment. -/
def containsSub (s pat : Str) : Bool :=
  (List.range (s.length + 1)).any (isSubAt pat s)

/-- Regex `\b` immediately before position `i` when the pattern character at `i`
is a word character: the previous character is absent or not a word character. -/
def boundaryBefore (s : Str) (i : Nat) : Bool :=
  i == 0 || !isWordCp (s.getD (i - 1) 32)

/-- Regex `\b` immediately after position `j` when the pattern character ending at `j`
is a word character: the character at `j` is absent or not a word character. -/
def boundaryAfter (s : Str) (j : Nat) : Bool :=
  decide (s.length ≤ j) || !isWordCp (s.getD j 32)

/-- `len` consecutive `\d` characters starting at `i`. -/
def digitsAt (s : Str) (i len : Nat) : Bool :=
  decide (i + len ≤ s.length) && ((s.drop i).take len).all isDigitCp

/-- Length of the run of characters satisfying `p` at the head of `l`. -/
def runCount (p : Nat → Bool) : List Nat → Nat
  | [] => 0
  | a :: t => if p a then runCount p t + 1 else 0

/-- First position at or after `j` in `s` whose character fails `p`. -/
def skipWhile (p : Nat → Bool) (s : Str) (j : Nat) : Nat :=
  j + runCount p (s.drop j)

/-- Regex `\bw\b` at position `i`, case-insensitively (`w` starts and ends with
word characters in every pattern of the source). -/
def wordAtCI (w s : Str) (i : Nat) : Bool :=
  isSubAtCI w s i && boundaryBefore s i && boundaryAfter s (i + w.length)

/-- re.search of `\bw\b` (IGNORECASE) anywhere in `s`. -/
def searchWordCI (w s : Str) : Bool :=
  (List.range (s.length + 1)).any (wordAtCI w s)

/-- re.search of `\b(?:w1|w2|...)\b` (IGNORECASE). -/
def searchWordsCI (ws : List Str) (s : Str) : Bool :=
  ws.any (fun w => searchWordCI w s)

/-! ## message_classifier.py -/

/-- `MessageType(str, Enum)` of models.py / message_classifier.py. -/
inductive MessageType where
  | OTP
  | TRANSACTION
  | BILL
  | SECURITY_ALERT
  | UNKNOWN
deriving DecidableEq

/-- Enum value string of a `MessageType` member. -/
def mtValue : MessageType → String
  | .OTP => "OTP"
  | .TRANSACTION => "TRANSACTION"
  | .BILL => "BILL"
  | .SECURITY_ALERT => "SECURITY_ALERT"
  | .UNKNOWN => "UNKNOWN"

/-- A value in the `metadata` dict of a classification result: the source only
stores booleans and short strings there. -/
inductive MetaVal where
  | b (v : Bool)
  | s (v : String)
deriving DecidableEq

/-- `ClassificationResult` dataclass: type, confidence (in hundredths, see the
file header), metadata dict as an association list. -/
structure ClassificationResult where
  message_type : MessageType
  confidence : Nat
  metadata : List (String × MetaVal)
deriving DecidableEq

/-- Keyword alternation of OTP patterns 1 and 2: `(?:OTP|otp|code|verification|PIN|pin)`. -/
def otpKeywordAlts : List Str :=
  [strOf "OTP", strOf "otp", strOf "code", strOf "verification", strOf "PIN", strOf "pin"]

/-- Tail `(\d{4,8})\b` searched at any position `k ≥ start` (no `\b` before the
digits): 4 to 8 digits followed by a word boundary. -/
def searchDigits48TailB (s : Str) (start : Nat) : Bool :=
  (List.range (s.length + 1)).any fun k =>
    decide (start ≤ k) &&
      ((List.range 5).any fun t =>
        digitsAt s k (4 + t) && boundaryAfter s (k + 4 + t))

/-- OTP pattern 1, `\b(?:OTP|otp|code|verification|PIN|pin)\b.*?(\d{4,8})\b`
with re.IGNORECASE: a word-bounded keyword followed, anywhere to its right,
by 4 to 8 digits ending at a word boundary. -/
def otpPattern1 (s : Str) : Bool :=
  (List.range (s.length + 1)).any fun i =>
    otpKeywordAlts.any fun w =>
      wordAtCI w s i && searchDigits48TailB s (i + w.length)

/-- OTP pattern 2, `\b(\d{4,8})\b.*?(?:OTP|otp|code|verification|PIN|pin)\b`
with re.IGNORECASE: a word-bounded 4-8 digit run followed, anywhere to its
right, by a keyword ending at a word boundary (no boundary before the keyword). -/
def otpPattern2 (s : Str) : Bool :=
  (List.range (s.length + 1)).any fun i =>
    (List.range 5).any fun t =>
      digitsAt s i (4 + t) && boundaryBefore s i && boundaryAfter s (i + 4 + t) &&
        ((List.range (s.length + 1)).any fun k =>
          decide (i + 4 + t ≤ k) &&
            otpKeywordAlts.any fun w =>
              isSubAtCI w s k && boundaryAfter s (k + w.length))

/-- OTP pattern 3,
`\b(?:your|the)\s+(?:OTP|code|PIN)\s+(?:is|:)\s*(\d{4,8})\b` with
re.IGNORECASE, translated segment by segment (each `\s+` run is maximal, which
agrees with the regex because every following token starts with a
non-whitespace character). -/
def otpPattern3 (s : Str) : Bool :=
  (List.range (s.length + 1)).any fun i =>
    boundaryBefore s i &&
      ([strOf "your", strOf "the"].any fun w1 =>
        isSubAtCI w1 s i &&
          (let j1 := skipWhile isSpaceCp s (i + w1.length)
           decide (i + w1.length < j1) &&
             ([strOf "OTP", strOf "code", strOf "PIN"].any fun w2 =>
               isSubAtCI w2 s j1 &&
                 (let j2 := skipWhile isSpaceCp s (j1 + w2.length)
                  decide (j1 + w2.length < j2) &&
                    ([strOf "is", strOf ":"].any fun w3 =>
                      isSubAtCI w3 s j2 &&
                        (let j3 := skipWhile isSpaceCp s (j2 + w3.length)
                         (List.range 5).any fun t =>
                           digitsAt s j3 (4 + t) && boundaryAfter s (j3 + 4 + t)))))))

/-- Standalone digit check of `_check_otp`: re.search of `\b\d{4,8}\b`, i.e. a
maximal digit run of length 4 to 8 delimited by word boundaries. -/
def searchBoundedDigits48 (s : Str) : Bool :=
  (List.range (s.length + 1)).any fun i =>
    (List.range 5).any fun t =>
      digitsAt s i (4 + t) && boundaryBefore s i && boundaryAfter s (i + 4 + t)

/-- Context words of the standalone digit check in `_check_otp`
(`['otp', 'code', 'verification', 'pin', 'password']`, searched with plain
substring containment in the lower-cased message). -/
def otpContextWords : List Str :=
  [strOf "otp", strOf "code", strOf "verification", strOf "pin", strOf "password"]

/-- `MessageClassifier._check_otp`. -/
def check_otp (message : Str) : Option ClassificationResult :=
  if otpPattern1 message || otpPattern2 message || otpPattern3 message then
    some ⟨.OTP, 95, [("has_otp", .b true), ("urgency", .s "high")]⟩
  else if searchBoundedDigits48 message &&
      otpContextWords.any (fun w => containsSub (lowerStr message) w) then
    some ⟨.OTP, 85, [("has_otp", .b true), ("urgency", .s "high")]⟩
  else
    none

/-- `XX\d+\b` searched at any position `k ≥ start` with a word boundary before
the `XX` (tail of TRANSACTION_KEYWORDS patterns 4 and 5, re.IGNORECASE):
greedy `\d+` with a trailing `\b` matches exactly a nonempty maximal digit run
whose end is a word boundary. -/
def searchXXDigits (s : Str) (start : Nat) : Bool :=
  (List.range (s.length + 1)).any fun k =>
    decide (start ≤ k) && boundaryBefore s k && isSubAtCI (strOf "XX") s k &&
      (let m := runCount isDigitCp (s.drop (k + 2))
       decide (1 ≤ m) && boundaryAfter s (k + 2 + m))

/-- `\baccount\b.*?\bXX\d+\b` or `\bcard\b.*?\bXX\d+\b` (re.IGNORECASE). -/
def searchWordThenXXDigits (w s : Str) : Bool :=
  (List.range (s.length + 1)).any fun i =>
    wordAtCI w s i && searchXXDigits s (i + w.length)

/-- Number of `true` entries (used for the score accumulation loops). -/
def countTrue (l : List Bool) : Nat :=
  l.foldl (fun a b => if b then a + 1 else a) 0

/-- Pattern shape `\bw1\s+(?:a1|a2|...)\b` (re.IGNORECASE), as in
`\bnew\s+(?:device|location|login)\b`: a word-bounded first word, at least one
whitespace character, then an alternative ending at a word boundary.  The
`\s+` run is maximal, which agrees with the regex because every alternative
starts with a non-whitespace character. -/
def searchWordGapAlt (w1 : Str) (alts : List Str) (s : Str) : Bool :=
  (List.range (s.length + 1)).any fun i =>
    boundaryBefore s i && isSubAtCI w1 s i &&
      (let j := skipWhile isSpaceCp s (i + w1.length)
       decide (i + w1.length < j) &&
         alts.any (fun w => isSubAtCI w s j && boundaryAfter s (j + w.length)))

/-- Pattern shape `\b(?:u1|u2)\s+(?:a1|a2)\b` (re.IGNORECASE), as in
`\b(?:verify|confirm)\s+(?:identity|account)\b`. -/
def searchWordsGapAlt (w1s alts : List Str) (s : Str) : Bool :=
  w1s.any (fun w1 => searchWordGapAlt w1 alts s)

/-- Tail `\s*[\d,]+(?:\.\d{2})?` of amount pattern 1 at position `j`; returns
the end position of the match.  `\s*` and `[\d,]+` are maximal runs (the
following token classes are disjoint), and the optional `\.\d{2}` is taken
exactly when a dot and two digits follow. -/
def amountTailAt (s : Str) (j : Nat) : Option Nat :=
  let j1 := skipWhile isSpaceCp s j
  let j2 := skipWhile (fun n => isDigitCp n || n == 44) s j1
  if decide (j2 = j1) then none
  else if s.getD j2 32 == 46 && isDigitCp (s.getD (j2 + 1) 32) &&
      isDigitCp (s.getD (j2 + 2) 32) then some (j2 + 3)
  else some j2

/-- Amount pattern 1, `(?:Rs\.?|INR|₹)\s*[\d,]+(?:\.\d{2})?` (case sensitive:
`re.search(pattern, message)` is called without flags), matched at position
`i`; returns the end position.  The optional dot of `Rs\.?` is taken greedily
and given up if the tail then fails, following the regex backtracking. -/
def matchAmount1At (s : Str) (i : Nat) : Option Nat :=
  if isSubAt (strOf "Rs") s i then
    if s.getD (i + 2) 32 == 46 then
      match amountTailAt s (i + 3) with
      | some e => some e
      | none => amountTailAt s (i + 2)
    else amountTailAt s (i + 2)
  else if isSubAt (strOf "INR") s i then amountTailAt s (i + 3)
  else if isSubAt (strOf "₹") s i then amountTailAt s (i + 1)
  else none

/-- Currency token `(?:Rs\.?|INR|₹)` at position `j` (trailing position of
amount pattern 2); the optional dot of `Rs\.?` is greedy and unconstrained. -/
def currencyAt (s : Str) (j : Nat) : Option Nat :=
  if isSubAt (strOf "Rs") s j then
    some (if s.getD (j + 2) 32 == 46 then j + 3 else j + 2)
  else if isSubAt (strOf "INR") s j then some (j + 3)
  else if isSubAt (strOf "₹") s j then some (j + 1)
  else none

/-- Amount pattern 2, `[\d,]+(?:\.\d{2})?\s*(?:Rs\.?|INR|₹)` (case sensitive)
matched at position `i`.  As in pattern 1, the optional `\.\d{2}` is tried
greedily and given up if the currency token then fails. -/
def matchAmount2At (s : Str) (i : Nat) : Option Nat :=
  let j1 := skipWhile (fun n => isDigitCp n || n == 44) s i
  if decide (j1 = i) then none
  else
    let tryCur := fun (j2 : Nat) => currencyAt s (skipWhile isSpaceCp s j2)
    if s.getD j1 32 == 46 && isDigitCp (s.getD (j1 + 1) 32) &&
        isDigitCp (s.getD (j1 + 2) 32) then
      match tryCur (j1 + 3) with
      | some e => some e
      | none => tryCur j1
    else tryCur j1

/-- The `for pattern in self.AMOUNT_PATTERNS: if re.search(pattern, message)`
loop: some amount pattern occurs somewhere in the message. -/
def hasAmountPattern (s : Str) : Bool :=
  ((List.range (s.length + 1)).any fun i => (matchAmount1At s i).isSome) ||
    ((List.range (s.length + 1)).any fun i => (matchAmount2At s i).isSome)

/-- `MessageClassifier._check_transaction`: one point per matching
TRANSACTION_KEYWORDS pattern, one point if an amount pattern is present;
TRANSACTION when the score reaches 2. -/
def check_transaction (message : Str) : Option ClassificationResult :=
  let keywordHits := countTrue
    [searchWordsCI [strOf "debited", strOf "credited", strOf "withdrawn",
        strOf "deposited", strOf "transferred"] message,
      searchWordsCI [strOf "debit", strOf "credit", strOf "withdrawal",
        strOf "deposit", strOf "transfer"] message,
      searchWordCI (strOf "A/c") message,
      searchWordThenXXDigits (strOf "account") message,
      searchWordThenXXDigits (strOf "card") message]
  let has_amount := hasAmountPattern message
  let transaction_score := keywordHits + (if has_amount then 1 else 0)
  if 2 ≤ transaction_score then
    some ⟨.TRANSACTION, if has_amount then 90 else 75,
      [("has_amount", .b has_amount), ("urgency", .s "medium")]⟩
  else
    none

/-- `MessageClassifier._check_security_alert` over SECURITY_KEYWORDS. -/
def check_security_alert (message : Str) : Option ClassificationResult :=
  let security_score := countTrue
    [searchWordsCI [strOf "alert", strOf "security", strOf "suspicious",
        strOf "unauthorized", strOf "blocked", strOf "locked"] message,
      searchWordsCI [strOf "fraud", strOf "scam", strOf "phishing"] message,
      searchWordGapAlt (strOf "new")
        [strOf "device", strOf "location", strOf "login"] message,
      searchWordsGapAlt [strOf "verify", strOf "confirm"]
        [strOf "identity", strOf "account"] message]
  if 1 ≤ security_score then
    some ⟨.SECURITY_ALERT, 85, [("urgency", .s "high")]⟩
  else
    none

/-- `MessageClassifier._check_bill` over BILL_KEYWORDS and AMOUNT_PATTERNS. -/
def check_bill (message : Str) : Option ClassificationResult :=
  let keywordHits := countTrue
    [searchWordsCI [strOf "bill", strOf "invoice", strOf "payment",
        strOf "due", strOf "overdue"] message,
      searchWordsGapAlt [strOf "pay"] [strOf "by", strOf "before"] message,
      searchWordsGapAlt [strOf "due"] [strOf "date", strOf "on"] message]
  let has_amount := hasAmountPattern message
  let bill_score := keywordHits + (if has_amount then 1 else 0)
  if 2 ≤ bill_score then
    some ⟨.BILL, 80, [("has_amount", .b has_amount), ("urgency", .s "low")]⟩
  else
    none

/-- `MessageClassifier.classify`: the four checks in priority order with the
UNKNOWN fallback. -/
def classify (message_body : Str) (sender : Str) : ClassificationResult :=
  match check_otp message_body with
  | some r => r
  | none =>
    match check_transaction message_body with
    | some r => r
    | none =>
      match check_security_alert message_body with
      | some r => r
      | none =>
        match check_bill message_body with
        | some r => r
        | none => ⟨.UNKNOWN, 0, [("reason", .s "No matching patterns")]⟩

/-! ## template_manager.py -/

/-- One entry of the parameter list returned by the template renderers:
`{"type": "text", "text": value}`. -/
structure TemplateParam where
  ptype : String
  text : Str
deriving DecidableEq

/-- Generic re.sub scanner: walk the string left to right; when `matchAt`
succeeds at the current position (returning the end position of the match),
emit `repl` and continue after the match, otherwise emit the character and
advance by one.  Every pattern used in `_mask_sensitive_data` consumes at
least one character, so fuel `s.length` suffices. -/
def subScanAux (matchAt : Str → Nat → Option Nat) (repl : Str) (s : Str) :
    Nat → Nat → Str
  | 0, _ => []
  | fuel + 1, i =>
    if i < s.length then
      match matchAt s i with
      | some e => repl ++ subScanAux matchAt repl s fuel (max e (i + 1))
      | none => s.getD i 32 :: subScanAux matchAt repl s fuel (i + 1)
    else []

/-- `re.sub(pattern, repl, s)` for the patterns of `_mask_sensitive_data`. -/
def subStr (matchAt : Str → Nat → Option Nat) (repl : Str) (s : Str) : Str :=
  subScanAux matchAt repl s s.length 0

/-- Account-reference pattern `\bXX\d+\b` of `_mask_sensitive_data`
(case sensitive: `re.sub` is called without flags) at position `i`; the
greedy `\d+` with trailing `\b` matches exactly a nonempty maximal digit run
ending at a word boundary. -/
def matchXXAt (s : Str) (i : Nat) : Option Nat :=
  if boundaryBefore s i && isSubAt (strOf "XX") s i then
    let m := runCount isDigitCp (s.drop (i + 2))
    if 1 ≤ m && boundaryAfter s (i + 2 + m) then some (i + 2 + m) else none
  else none

/-- Catch-all pattern `\b\d{4,}\b` of `_mask_sensitive_data` at position `i`:
a maximal digit run of length at least 4 delimited by word boundaries. -/
def matchLongDigitsAt (s : Str) (i : Nat) : Option Nat :=
  if boundaryBefore s i then
    let m := runCount isDigitCp (s.drop i)
    if 4 ≤ m && boundaryAfter s (i + m) then some (i + m) else none
  else none

/-- `TemplateManager._mask_sensitive_data`: mask amounts, then account
references, then remaining 4+ digit runs, then truncate to 200 characters
with an ellipsis. -/
def mask_sensitive_data (text : Str) : Str :=
  let m1 := subStr matchAmount1At (strOf "Rs ****") text
  let m2 := subStr matchXXAt (strOf "XX****") m1
  let m3 := subStr matchLongDigitsAt (strOf "****") m2
  if 200 < m3.length then m3.take 197 ++ strOf "..." else m3

/-- Leftmost `\b(\d{4,8})\b` match of `_render_otp_params` at position `i`:
the digits of the match (the whole maximal run, which the boundaries force). -/
def otpCodeAt (s : Str) (i : Nat) : Option Str :=
  if boundaryBefore s i then
    let m := runCount isDigitCp (s.drop i)
    if 4 ≤ m && m ≤ 8 && boundaryAfter s (i + m) then some ((s.drop i).take m)
    else none
  else none

/-- `re.search(r'\b(\d{4,8})\b', content)` group 1: the leftmost match. -/
def findOtpCode (s : Str) : Option Str :=
  (List.range (s.length + 1)).findSome? (otpCodeAt s)

/-- `TemplateManager._render_otp_params`: `[sender, extracted code or "******"]`. -/
def render_otp_params (sender message_content : Str) : List TemplateParam :=
  [⟨"text", sender⟩, ⟨"text", (findOtpCode message_content).getD (strOf "******")⟩]

/-- Transaction label of `_render_transaction_params`, from substring checks
on the lower-cased content. -/
def transaction_label (message_content : Str) : Str :=
  let message_lower := lowerStr message_content
  if containsSub message_lower (strOf "debit") ||
      containsSub message_lower (strOf "withdrawn") then strOf "Debit Alert"
  else if containsSub message_lower (strOf "credit") ||
      containsSub message_lower (strOf "deposit") then strOf "Credit Alert"
  else strOf "Transaction Alert"

/-- `TemplateManager._render_transaction_params`: `[label, sender, masked summary]`. -/
def render_transaction_params (sender message_content : Str) : List TemplateParam :=
  [⟨"text", transaction_label message_content⟩, ⟨"text", sender⟩,
    ⟨"text", mask_sensitive_data message_content⟩]

/-- `TemplateManager._render_bill_params`: `[sender, masked summary]`. -/
def render_bill_params (sender message_content : Str) : List TemplateParam :=
  [⟨"text", sender⟩, ⟨"text", mask_sensitive_data message_content⟩]

/-- `message_content[:200]` truncation used by the security and generic
renderers (no masking, no ellipsis). -/
def truncate200 (message_content : Str) : Str :=
  if 200 < message_content.length then message_content.take 200 else message_content

/-- `TemplateManager._render_security_params`: `[sender, truncated summary]` -
the content is only truncated, `_mask_sensitive_data` is not applied. -/
def render_security_params (sender message_content : Str) : List TemplateParam :=
  [⟨"text", sender⟩, ⟨"text", truncate200 message_content⟩]

/-- `TemplateManager._render_generic_params` (fallback): `[sender, truncated summary]`. -/
def render_generic_params (sender message_content : Str) : List TemplateParam :=
  [⟨"text", sender⟩, ⟨"text", truncate200 message_content⟩]

/-- `TemplateManager.render_template_params`: dispatch on the message type. -/
def render_template_params (message_type : MessageType)
    (sender message_content : Str) : List TemplateParam :=
  match message_type with
  | .OTP => render_otp_params sender message_content
  | .TRANSACTION => render_transaction_params sender message_content
  | .BILL => render_bill_params sender message_content
  | .SECURITY_ALERT => render_security_params sender message_content
  | .UNKNOWN => render_generic_params sender message_content

/-! ## crypto_service.py -/

/-- Outcomes of the primitive operations used by `CryptoService.decrypt_otp`,
abstracted as total functions: base64 transport decoding (`None` models a
raised `binascii.Error`), AES-256-GCM open (`None` models a raised
`InvalidTag`), and UTF-8 decoding of the plaintext bytes (`None` models a
raised `UnicodeDecodeError`). -/
structure CryptoPrims where
  b64decode : String → Option (List Nat)
  aeadDecrypt : List Nat → List Nat → Option (List Nat)
  utf8decode : List Nat → Option Str

/-- `CryptoService.decrypt_otp`: decode base64, split the 12-byte IV from the
ciphertext-plus-tag, open the AEAD, decode UTF-8.  An `InvalidTag` becomes
`ValueError("Decryption failed: Invalid authentication tag")`; every other
failure is caught by the generic handler and becomes
`ValueError("Decryption failed")`.  Errors are modelled as `Except.error`
carrying the `ValueError` message. -/
def decrypt_otp (P : CryptoPrims) (encrypted_payload : String) :
    Except String Str :=
  match P.b64decode encrypted_payload with
  | none => .error "Decryption failed"
  | some encrypted_data =>
    let iv := encrypted_data.take 12
    let ciphertext_with_tag := encrypted_data.drop 12
    match P.aeadDecrypt iv ciphertext_with_tag with
    | none => .error "Decryption failed: Invalid authentication tag"
    | some plaintext =>
      match P.utf8decode plaintext with
      | none => .error "Decryption failed"
      | some s => .ok s

/-- `CryptoService.verify_hmac`: recompute HMAC-SHA256 over the payload with
the MAC key and compare (`hmac.compare_digest` is equality with constant-time
evaluation).  The HMAC computation itself is abstracted as `hmacFn`. -/
def verify_hmac (hmacFn : String → String) (payload signature : String) : Bool :=
  hmacFn payload == signature

/-- `CryptoService.validate_and_decrypt`: signature check strictly before
decryption; a failed check raises `ValueError("HMAC verification failed")`. -/
def validate_and_decrypt (P : CryptoPrims) (hmacFn : String → String)
    (encrypted_payload hmac_signature : String) : Except String Str :=
  if !(verify_hmac hmacFn encrypted_payload hmac_signature) then
    .error "HMAC verification failed"
  else decrypt_otp P encrypted_payload

/-! ## storage_service.py (in-memory fallback and Redis mode) -/

/-- Values of `StorageService.memory_store`: `{"sender": ..,
"message_type": .., "expires_at": time.time() + ttl}` (the clock is
modelled in whole seconds). -/
structure MemEntry where
  sender : Str
  message_type : MessageType
  expires_at : Nat
deriving DecidableEq

/-- The in-memory dict, as an association list with unique keys. -/
abbrev MemStore := List (Str × MemEntry)

/-- TTL configuration of config.py (`ttl_otp` etc.). -/
structure Settings where
  ttl_otp : Nat
  ttl_transaction : Nat
  ttl_bill : Nat
  ttl_security : Nat
deriving DecidableEq

/-- The config.py defaults: OTP 300, TRANSACTION 600, BILL 900, SECURITY 600. -/
def defaultSettings : Settings := ⟨300, 600, 900, 600⟩

/-- `StorageService._get_ttl_for_type` (UNKNOWN falls back to the OTP TTL). -/
def get_ttl_for_type (S : Settings) : MessageType → Nat
  | .OTP => S.ttl_otp
  | .TRANSACTION => S.ttl_transaction
  | .BILL => S.ttl_bill
  | .SECURITY_ALERT => S.ttl_security
  | .UNKNOWN => S.ttl_otp

/-- `StorageService._cleanup_expired`: drop every entry with
`current_time >= expires_at`. -/
def cleanup_expired (now : Nat) (st : MemStore) : MemStore :=
  st.filter (fun kv => decide (now < kv.2.expires_at))

/-- `StorageService.exists` in memory mode: lazy sweep, then key lookup.
Returns the answer together with the swept store (the sweep mutates
`self.memory_store`). -/
def mem_exists (now : Nat) (st : MemStore) (key : Str) : Bool × MemStore :=
  let st1 := cleanup_expired now st
  (st1.any (fun kv => decide (kv.1 = key)), st1)

/-- The store step of `StorageService.store_message` in memory mode: sweep
again, then `self.memory_store[message_hash] = {...}` with
`expires_at = now + ttl` (dict assignment replaces any entry with the key). -/
def mem_insert (S : Settings) (now : Nat) (st : MemStore)
    (message_hash sender : Str) (message_type : MessageType) : MemStore :=
  let ttl := get_ttl_for_type S message_type
  let st1 := cleanup_expired now st
  (message_hash, ⟨sender, message_type, now + ttl⟩) ::
    st1.filter (fun kv => !(decide (kv.1 = message_hash)))

/-- The code that runs when `store_message` resumes after its awaited
existence check: with check answer `ex` and the store state `stNow` current at
resume time, return `False` on a hit, otherwise insert and return `True`. -/
def store_resume (S : Settings) (now : Nat) (ex : Bool) (stNow : MemStore)
    (message_hash sender : Str) (message_type : MessageType) : Bool × MemStore :=
  if ex then (false, stNow)
  else (true, mem_insert S now stNow message_hash sender message_type)

/-- `StorageService.store_message` in memory mode: the awaited existence
check followed by the resume step, run back to back (the uninterrupted
sequential execution). -/
def store_message_mem (S : Settings) (now : Nat) (st : MemStore)
    (message_hash sender : Str) (message_type : MessageType) : Bool × MemStore :=
  let ex := mem_exists now st message_hash
  store_resume S now ex.1 ex.2 message_hash sender message_type

/-- `StorageService.exists` in Redis mode: `redis.exists` may raise (the
backing store is unreachable), in which case the handler returns `False`. -/
def redis_exists (existsRaw : Except Unit Bool) : Bool :=
  match existsRaw with
  | .ok b => b
  | .error _ => false

/-- `StorageService.store_message` in Redis mode: duplicate check via
`redis_exists`, then `setex`; if the write raises, the exception handler
returns `False` (the same value that signals a duplicate). -/
def store_message_redis (existsRaw : Except Unit Bool) (setexOk : Bool) : Bool :=
  if redis_exists existsRaw then false
  else if setexOk then true
  else false

/-! ## main.py: the /forward-message pipeline -/

/-- `EncryptedMessageRequest` of models.py (validated fields; `sender` and
`message_hash` are carried as embedded strings). -/
structure EncryptedMessageRequest where
  encrypted_payload : String
  hmac_signature : String
  sender : Str
  message_type : MessageType
  timestamp : Int
  message_hash : Option Str
deriving DecidableEq

/-- `ForwardResponse` of models.py. -/
structure ForwardResponse where
  success : Bool
  message : String
  whatsapp_message_id : Option String
deriving DecidableEq

/-- Result of one `/forward-message` request: a response body or a raised
`HTTPException` with its status code and detail. -/
inductive ForwardOutcome where
  | response (r : ForwardResponse)
  | httpError (statusCode : Nat) (detail : String)
deriving DecidableEq

/-- The replay check of `forward_message` (main.py step 1) as the stateless
predicate the spec calls `isFresh`: the request is fresh when
`abs(now - timestamp)` does not exceed 300 seconds for a declared `OTP` type
and 600 seconds otherwise (the code rejects on `time_diff > max_time_diff`). -/
def is_fresh (timestamp : Int) (message_type : MessageType) (now : Int) : Bool :=
  let time_diff := (now - timestamp).natAbs
  let max_time_diff : Nat := if message_type = .OTP then 300 else 600
  decide (time_diff ≤ max_time_diff)

/-- `forward_message` of main.py, parameterised over its collaborators:
`crypto` is `crypto_service.validate_and_decrypt`, `sha256hex` the
`hashlib.sha256(...).hexdigest()` fallback fingerprint, `store` the awaited
`storage_service.store_message` call acting on store state `σ`, and `send`
the awaited `whatsapp_service.send_message` call (returning the message id,
or `None` on failure).  The result carries the outcome, the final store
state, and whether step 6 (the outbound send) was reached.  Response
messages mirror the f-strings of the source via `mtValue`. -/
def forward_message {σ : Type} (crypto : String → String → Except String Str)
    (sha256hex : Str → Str) (store : Str → Str → MessageType → σ → Bool × σ)
    (send : Str → Str → MessageType → Option String) (now : Int)
    (req : EncryptedMessageRequest) (st : σ) : ForwardOutcome × σ × Bool :=
  if !(is_fresh req.timestamp req.message_type now) then
    (.httpError 400 "Request timestamp is invalid", st, false)
  else
    match crypto req.encrypted_payload req.hmac_signature with
    | .error _ => (.httpError 401 "Authentication failed", st, false)
    | .ok decrypted_message =>
      let message_type :=
        if req.message_type = .UNKNOWN then
          (classify decrypted_message req.sender).message_type
        else req.message_type
      let message_hash :=
        match req.message_hash with
        | some h => h
        | none => sha256hex decrypted_message
      let stored := store message_hash req.sender message_type st
      if stored.1 = false then
        (.response ⟨true, mtValue message_type ++ " message already forwarded", none⟩,
          stored.2, false)
      else
        match send decrypted_message req.sender message_type with
        | none => (.httpError 500 "Failed to send WhatsApp message", stored.2, true)
        | some mid =>
          (.response ⟨true, mtValue message_type ++ " message forwarded successfully",
            some mid⟩, stored.2, true)

/-- A Redis-mode `store` argument for `forward_message` with fixed call
outcomes (the Redis connection state does not live in the pipeline). -/
def redisStore (existsRaw : Except Unit Bool) (setexOk : Bool) :
    Str → Str → MessageType → Unit → Bool × Unit :=
  fun _ _ _ _ => (store_message_redis existsRaw setexOk, ())

/-! ## Auxiliary concrete instantiations used by the theorems -/

/-- Crypto primitives where the AEAD open fails (a tampered tag): base64
decodes, `AESGCM.decrypt` raises `InvalidTag`. -/
def primsTagFail : CryptoPrims :=
  ⟨fun _ => some (List.replicate 28 0), fun _ _ => none, fun b => some b⟩

/-- Crypto primitives where the transport encoding is malformed:
`base64.b64decode` raises. -/
def primsB64Fail : CryptoPrims :=
  ⟨fun _ => none, fun _ _ => none, fun b => some b⟩

/-- A `/forward-message` request with a caller-supplied `message_hash` and a
declared `TRANSACTION` type, timestamped 1000. -/
def suppliedHashRequest (h : Str) : EncryptedMessageRequest :=
  ⟨"p", "s", strOf "BANK", .TRANSACTION, 1000, some h⟩

/-- The in-memory store as the `store` collaborator of `forward_message`,
with the service clock fixed at `now`. -/
def memStoreAt (now : Nat) : Str → Str → MessageType → MemStore → Bool × MemStore :=
  fun h s mt st => store_message_mem defaultSettings now st h s mt

/-! ## Theorems for the claims -/

/-- Claim C1, counterexample: the SECURITY_ALERT renderer does not apply the
masking pass.  The message "Suspicious transaction of Rs 5000 on your card"
classifies as SECURITY_ALERT, yet its rendered parameters still contain the
raw amount digits 5000 - which `_mask_sensitive_data` would have removed. -/
theorem claim_C1_counterexample :
    classify (strOf "Suspicious transaction of Rs 5000 on your card") (strOf "BANK") =
      ⟨.SECURITY_ALERT, 85, [("urgency", .s "high")]⟩ ∧
    ((render_template_params .SECURITY_ALERT (strOf "BANK")
        (strOf "Suspicious transaction of Rs 5000 on your card")).any
      (fun p => containsSub p.text (strOf "5000"))) = true ∧
    containsSub (mask_sensitive_data
      (strOf "Suspicious transaction of Rs 5000 on your card")) (strOf "5000") = false := by
  decide

/-- Claim C1, amended: the renderer applies the masking pass to the free-text
summaries of TRANSACTION and BILL templates only; SECURITY_ALERT and the
unclassified fallback merely truncate the decrypted content to 200
characters, so raw amounts and account numbers can still appear in those
parameters (witnessed by the concrete instances in the last two conjuncts). -/
theorem claim_C1_amended :
    (∀ sender content : Str,
      render_template_params .TRANSACTION sender content =
        [⟨"text", transaction_label content⟩, ⟨"text", sender⟩,
          ⟨"text", mask_sensitive_data content⟩] ∧
      render_template_params .BILL sender content =
        [⟨"text", sender⟩, ⟨"text", mask_sensitive_data content⟩] ∧
      render_template_params .SECURITY_ALERT sender content =
        [⟨"text", sender⟩, ⟨"text", truncate200 content⟩] ∧
      render_template_params .UNKNOWN sender content =
        [⟨"text", sender⟩, ⟨"text", truncate200 content⟩]) ∧
    ((render_template_params .TRANSACTION (strOf "BANK")
        (strOf "Suspicious debit of Rs 5000")).any
      (fun p => containsSub p.text (strOf "5000"))) = false ∧
    ((render_template_params .SECURITY_ALERT (strOf "BANK")
        (strOf "Suspicious debit of Rs 5000")).any
      (fun p => containsSub p.text (strOf "5000"))) = true := by
  refine ⟨fun sender content => ⟨rfl, rfl, rfl, rfl⟩, ?_, ?_⟩ <;> decide

/-- Claim C2: at the failing input (backing store unreachable - the Redis
existence check raises and is collapsed to `False`, and the `setex` write
raises), `forward_message` answers HTTP 200 with `success=True` and the
"already forwarded" duplicate message instead of a hard failure; the same
happens when only the registration write fails. -/
theorem claim_C2_storage_failure_reported_as_duplicate :
    forward_message (fun _ _ => .ok (strOf "msg")) (fun s => s)
      (redisStore (.error ()) false) (fun _ _ _ => some "wamid.1") 1000
      (suppliedHashRequest (strOf "h")) () =
      (.response ⟨true, "TRANSACTION message already forwarded", none⟩, (), false) ∧
    forward_message (fun _ _ => .ok (strOf "msg")) (fun s => s)
      (redisStore (.ok false) false) (fun _ _ _ => some "wamid.1") 1000
      (suppliedHashRequest (strOf "h")) () =
      (.response ⟨true, "TRANSACTION message already forwarded", none⟩, (), false) := by
  decide

/-- Claim C3, counterexample: the failure cause inside `decrypt_otp` is
distinguishable by the caller - an authentication-tag mismatch raises
`ValueError` with a different message than a malformed transport encoding,
so the failures do not collapse into one indistinguishable value. -/
theorem claim_C3_counterexample :
    decrypt_otp primsTagFail "payload" =
      .error "Decryption failed: Invalid authentication tag" ∧
    decrypt_otp primsB64Fail "payload" = .error "Decryption failed" ∧
    Except.error (ε := String) (α := Str)
        "Decryption failed: Invalid authentication tag" ≠
      Except.error "Decryption failed" := by
  refine ⟨rfl, rfl, ?_⟩
  intro h
  exact absurd (Except.error.inj h) (by decide)

/-- Claim C3, amended: every failure of the crypto gate is the same exception
class (`ValueError`, modelled as `Except.error`), and tampering with either
the payload or the signature of a previously valid pair makes
`validate_and_decrypt` fail at the signature check with the single error
value `"HMAC verification failed"` (for a tampered payload, under the
standard assumption that the modified payload does not collide on the MAC);
the *messages* of failures inside `decrypt_otp`, however, differ by cause. -/
theorem claim_C3_amended (P : CryptoPrims) (hmacFn : String → String)
    (payload payload2 sig sig2 : String)
    (hvalid : hmacFn payload = sig)
    (hnocoll : hmacFn payload2 ≠ sig)
    (hsig : sig2 ≠ sig) :
    validate_and_decrypt P hmacFn payload2 sig = .error "HMAC verification failed" ∧
    validate_and_decrypt P hmacFn payload sig2 = .error "HMAC verification failed" := by
  constructor
  · have hb : verify_hmac hmacFn payload2 sig = false := by
      simp [verify_hmac, hnocoll]
    simp [validate_and_decrypt, hb]
  · have hb : verify_hmac hmacFn payload sig2 = false := by
      simp [verify_hmac, hvalid]
      exact fun h => hsig h.symm
    simp [validate_and_decrypt, hb]

/-- Claim C3 witness: the amended theorem applied to the identity MAC with
payload "a", valid signature "a", tampered payload "b" and tampered
signature "c". -/
theorem claim_C3_amended_witness :
    validate_and_decrypt primsB64Fail (fun s => s) "b" "a" =
      .error "HMAC verification failed" ∧
    validate_and_decrypt primsB64Fail (fun s => s) "a" "c" =
      .error "HMAC verification failed" :=
  claim_C3_amended primsB64Fail (fun s => s) "a" "b" "a" "c" rfl
    (by decide) (by decide)

/-- Claim C6: "Rs 5000 debited from A/c XX1234" classifies as TRANSACTION
with metadata `has_amount = true` (confidence 0.9), and none of the rendered
TRANSACTION template parameters - in particular the masked summary - contain
the literal digits 5000 or 1234. -/
theorem claim_C6_transaction_masking :
    classify (strOf "Rs 5000 debited from A/c XX1234") (strOf "BANK") =
      ⟨.TRANSACTION, 90, [("has_amount", .b true), ("urgency", .s "medium")]⟩ ∧
    ((render_template_params .TRANSACTION (strOf "BANK")
        (strOf "Rs 5000 debited from A/c XX1234")).all
      (fun p => !(containsSub p.text (strOf "5000")) &&
        !(containsSub p.text (strOf "1234")))) = true ∧
    mask_sensitive_data (strOf "Rs 5000 debited from A/c XX1234") =
      strOf "Rs **** debited from A/c XX****" := by
  decide

/-- Claim C9: registration is *not* an atomic check-and-set - the source
checks existence with one awaited call and inserts afterwards, with no mutex.
The theorem first records that `store_message` is exactly this two-phase
composition, then exhibits the interleaving (task 1 check, task 2 check,
task 1 insert, task 2 insert) under which two concurrent arrivals of the same
fingerprint both observe `firstSeen=true`, contradicting "exactly one". -/
theorem claim_C9_nonatomic_race :
    (∀ (S : Settings) (now : Nat) (st : MemStore) (h s : Str) (mt : MessageType),
      store_message_mem S now st h s mt =
        store_resume S now (mem_exists now st h).1 (mem_exists now st h).2 h s mt) ∧
    ((store_resume defaultSettings 100
        (mem_exists 100 [] (strOf "fp")).1
        (mem_exists 100 (mem_exists 100 [] (strOf "fp")).2 (strOf "fp")).2
        (strOf "fp") (strOf "A") .OTP).1 = true ∧
     (store_resume defaultSettings 100
        (mem_exists 100 (mem_exists 100 [] (strOf "fp")).2 (strOf "fp")).1
        (store_resume defaultSettings 100
          (mem_exists 100 [] (strOf "fp")).1
          (mem_exists 100 (mem_exists 100 [] (strOf "fp")).2 (strOf "fp")).2
          (strOf "fp") (strOf "A") .OTP).2
        (strOf "fp") (strOf "B") .OTP).1 = true) := by
  refine ⟨fun S now st h s mt => rfl, ?_, ?_⟩ <;> decide

/-- Claim C4: for positive Unix-second timestamps, the replay check accepts
exactly when `|now - timestamp|` is at most 300 seconds for a declared OTP
type and at most 600 seconds for every other declared type, with the edge
behaviour 300 accept / 301 reject (OTP) and 600 accept / 601 reject
(all other types). -/
theorem claim_C4_replay_boundary :
    (∀ ts now : Int, 0 < ts → 0 < now →
      (is_fresh ts .OTP now = true ↔ |now - ts| ≤ 300) ∧
      ∀ mt, mt ≠ .OTP → (is_fresh ts mt now = true ↔ |now - ts| ≤ 600)) ∧
    is_fresh 1000 .OTP 1300 = true ∧ is_fresh 1000 .OTP 1301 = false ∧
    is_fresh 1000 .TRANSACTION 1600 = true ∧ is_fresh 1000 .TRANSACTION 1601 = false ∧
    is_fresh 1000 .BILL 1600 = true ∧ is_fresh 1000 .BILL 1601 = false ∧
    is_fresh 1000 .SECURITY_ALERT 1600 = true ∧
    is_fresh 1000 .SECURITY_ALERT 1601 = false ∧
    is_fresh 1000 .UNKNOWN 1600 = true ∧ is_fresh 1000 .UNKNOWN 1601 = false := by
  refine ⟨fun ts now _ _ => ⟨?_, fun mt hmt => ?_⟩, ?_, ?_, ?_, ?_, ?_, ?_, ?_, ?_, ?_, ?_⟩
  · simp only [is_fresh, decide_eq_true_eq, if_true, eq_self_iff_true,
      Int.abs_eq_natAbs]
    omega
  · simp only [is_fresh, decide_eq_true_eq, if_neg hmt, Int.abs_eq_natAbs]
    omega
  all_goals decide

/-- Claim C4 witness: the characterisation applied at timestamp 5 and
now 305 (OTP: difference exactly 300). -/
theorem claim_C4_witness :
    is_fresh 5 .OTP 305 = true ↔ |(305 : Int) - 5| ≤ 300 :=
  (claim_C4_replay_boundary.1 5 305 (by decide) (by decide)).1

/-- Claim C5: `classify` evaluates OTP, TRANSACTION, SECURITY_ALERT, BILL in
that fixed order and returns the first match, falling through to UNKNOWN with
confidence 0.0; on "Your OTP code is 482913, do not share" from "BANK" it
returns OTP with confidence 0.95. -/
theorem claim_C5_classifier_priority :
    (∀ msg sender r, check_otp msg = some r → classify msg sender = r) ∧
    (∀ msg sender r, check_otp msg = none → check_transaction msg = some r →
      classify msg sender = r) ∧
    (∀ msg sender r, check_otp msg = none → check_transaction msg = none →
      check_security_alert msg = some r → classify msg sender = r) ∧
    (∀ msg sender r, check_otp msg = none → check_transaction msg = none →
      check_security_alert msg = none → check_bill msg = some r →
      classify msg sender = r) ∧
    (∀ msg sender, check_otp msg = none → check_transaction msg = none →
      check_security_alert msg = none → check_bill msg = none →
      classify msg sender = ⟨.UNKNOWN, 0, [("reason", .s "No matching patterns")]⟩) ∧
    classify (strOf "Your OTP code is 482913, do not share") (strOf "BANK") =
      ⟨.OTP, 95, [("has_otp", .b true), ("urgency", .s "high")]⟩ := by
  refine ⟨?_, ?_, ?_, ?_, ?_, by decide⟩
  · intro msg sender r h1
    simp only [classify, h1]
  · intro msg sender r h1 h2
    simp only [classify, h1, h2]
  · intro msg sender r h1 h2 h3
    simp only [classify, h1, h2, h3]
  · intro msg sender r h1 h2 h3 h4
    simp only [classify, h1, h2, h3, h4]
  · intro msg sender h1 h2 h3 h4
    simp only [classify, h1, h2, h3, h4]

/-- Claim C5 witness: the UNKNOWN fallback conjunct applied at the concrete
message "Hello world" (no category matches). -/
theorem claim_C5_witness :
    classify (strOf "Hello world") (strOf "X") =
      ⟨.UNKNOWN, 0, [("reason", .s "No matching patterns")]⟩ :=
  claim_C5_classifier_priority.2.2.2.2.1 (strOf "Hello world") (strOf "X")
    (by decide) (by decide) (by decide) (by decide)

/-- Claim C7: in the in-process store, registering a fingerprint into the
empty store returns first-seen, an immediate re-registration returns
duplicate, and once the simulated clock has moved past `expires_at`
(`t0 + ttl`), a third registration returns first-seen again. -/
theorem claim_C7_dedup_idempotence (mt : MessageType) (fingerprint sender : Str)
    (t0 t2 : Nat) (hpast : t0 + get_ttl_for_type defaultSettings mt < t2) :
    (store_message_mem defaultSettings t0 [] fingerprint sender mt).1 = true ∧
    (store_message_mem defaultSettings t0
      (store_message_mem defaultSettings t0 [] fingerprint sender mt).2
      fingerprint sender mt).1 = false ∧
    (store_message_mem defaultSettings t2
      (store_message_mem defaultSettings t0
        (store_message_mem defaultSettings t0 [] fingerprint sender mt).2
        fingerprint sender mt).2
      fingerprint sender mt).1 = true := by
  have httl : 0 < get_ttl_for_type defaultSettings mt := by cases mt <;> decide
  have h1 : store_message_mem defaultSettings t0 [] fingerprint sender mt =
      (true, [(fingerprint,
        ⟨sender, mt, t0 + get_ttl_for_type defaultSettings mt⟩)]) := rfl
  have hkeep : cleanup_expired t0
      [(fingerprint, ⟨sender, mt, t0 + get_ttl_for_type defaultSettings mt⟩)] =
      [(fingerprint, ⟨sender, mt, t0 + get_ttl_for_type defaultSettings mt⟩)] := by
    have hc : t0 < t0 + get_ttl_for_type defaultSettings mt := by omega
    simp [cleanup_expired, hc]
  have h2 : store_message_mem defaultSettings t0
      [(fingerprint, ⟨sender, mt, t0 + get_ttl_for_type defaultSettings mt⟩)]
      fingerprint sender mt =
      (false, [(fingerprint,
        ⟨sender, mt, t0 + get_ttl_for_type defaultSettings mt⟩)]) := by
    simp only [store_message_mem, mem_exists, hkeep]
    simp [store_resume]
  have hdrop : cleanup_expired t2
      [(fingerprint, ⟨sender, mt, t0 + get_ttl_for_type defaultSettings mt⟩)] = [] := by
    have hc : ¬ (t2 < t0 + get_ttl_for_type defaultSettings mt) := by omega
    simp [cleanup_expired, hc]
  have h3 : store_message_mem defaultSettings t2
      [(fingerprint, ⟨sender, mt, t0 + get_ttl_for_type defaultSettings mt⟩)]
      fingerprint sender mt =
      (true, [(fingerprint,
        ⟨sender, mt, t2 + get_ttl_for_type defaultSettings mt⟩)]) := by
    simp only [store_message_mem, mem_exists, hdrop]
    simp [store_resume, mem_insert, cleanup_expired]
  rw [h1]
  exact ⟨rfl, by rw [h2], by rw [h2, h3]⟩

/-- Claim C7 witness: the idempotence chain at OTP TTL 300, fingerprint [1],
registration time 0 and re-registration time 301. -/
theorem claim_C7_witness :
    (store_message_mem defaultSettings 0 [] [1] [] .OTP).1 = true ∧
    (store_message_mem defaultSettings 0
      (store_message_mem defaultSettings 0 [] [1] [] .OTP).2 [1] [] .OTP).1 = false ∧
    (store_message_mem defaultSettings 301
      (store_message_mem defaultSettings 0
        (store_message_mem defaultSettings 0 [] [1] [] .OTP).2 [1] [] .OTP).2
      [1] [] .OTP).1 = true :=
  claim_C7_dedup_idempotence .OTP [1] [] 0 301 (by decide)

/-- Claim C8: whenever the registration call reports a duplicate
(`firstSeen=false`), the pipeline answers as a successful idempotent no-op:
`success=True`, an "already forwarded" message, a null notification id - and
the outbound send step is never reached. -/
theorem claim_C8_duplicate_is_noop {σ : Type}
    (crypto : String → String → Except String Str) (sha256hex : Str → Str)
    (store : Str → Str → MessageType → σ → Bool × σ)
    (send : Str → Str → MessageType → Option String) (now : Int)
    (req : EncryptedMessageRequest) (st : σ) (pt : Str)
    (hcrypto : crypto req.encrypted_payload req.hmac_signature = .ok pt)
    (hfresh : is_fresh req.timestamp req.message_type now = true)
    (hdup : ∀ h s mt stx, (store h s mt stx).1 = false) :
    ∃ mt st2,
      forward_message crypto sha256hex store send now req st =
        (.response ⟨true, mtValue mt ++ " message already forwarded", none⟩,
          st2, false) := by
  refine ⟨if req.message_type = .UNKNOWN then (classify pt req.sender).message_type
      else req.message_type,
    (store (match req.message_hash with | some h => h | none => sha256hex pt)
      req.sender
      (if req.message_type = .UNKNOWN then (classify pt req.sender).message_type
        else req.message_type) st).2, ?_⟩
  simp only [forward_message, hfresh, Bool.not_true, hcrypto, hdup]
  simp

/-- Claim C8 witness: the no-op response at a concrete request whose store
call always reports a duplicate. -/
theorem claim_C8_witness :
    ∃ mt st2,
      forward_message (fun _ _ => .ok (strOf "m")) (fun s => s)
        (fun _ _ _ (st : Unit) => (false, st)) (fun _ _ _ => some "id") 1000
        ⟨"p", "s", strOf "BANK", .BILL, 1000, none⟩ () =
        (.response ⟨true, mtValue mt ++ " message already forwarded", none⟩,
          st2, false) :=
  claim_C8_duplicate_is_noop (fun _ _ => .ok (strOf "m")) (fun s => s)
    (fun _ _ _ st => (false, st)) (fun _ _ _ => some "id") 1000
    ⟨"p", "s", strOf "BANK", .BILL, 1000, none⟩ () (strOf "m") rfl (by decide)
    (fun _ _ _ _ => rfl)

/-- Claim C10: a caller-supplied `message_hash` is used verbatim as the
deduplication fingerprint, never checked against the decrypted content.
Part one: two requests with the *same* supplied hash - whatever their
plaintexts `pt1`, `pt2` decrypt to - make the second request a duplicate
no-op (already-forwarded response, no send).  Part two: two requests whose
payloads decrypt to the *same* plaintext but which supply *distinct* hashes
are each treated as first-seen (both reach the send step). -/
theorem claim_C10_supplied_hash_trusted (pt1 pt2 fp h1 h2 : Str)
    (sha256hex : Str → Str) (send : Str → Str → MessageType → Option String)
    (hne : h1 ≠ h2) :
    ((forward_message (fun _ _ => .ok pt2) sha256hex (memStoreAt 500) send 1000
        (suppliedHashRequest fp)
        (forward_message (fun _ _ => .ok pt1) sha256hex (memStoreAt 500) send 1000
          (suppliedHashRequest fp) []).2.1).1 =
      .response ⟨true, "TRANSACTION message already forwarded", none⟩ ∧
     (forward_message (fun _ _ => .ok pt2) sha256hex (memStoreAt 500) send 1000
        (suppliedHashRequest fp)
        (forward_message (fun _ _ => .ok pt1) sha256hex (memStoreAt 500) send 1000
          (suppliedHashRequest fp) []).2.1).2.2 = false) ∧
    ((forward_message (fun _ _ => .ok pt1) sha256hex (memStoreAt 500) send 1000
        (suppliedHashRequest h1) []).2.2 = true ∧
     (forward_message (fun _ _ => .ok pt1) sha256hex (memStoreAt 500) send 1000
        (suppliedHashRequest h2)
        (forward_message (fun _ _ => .ok pt1) sha256hex (memStoreAt 500) send 1000
          (suppliedHashRequest h1) []).2.1).2.2 = true) := by
  have hfr : is_fresh (1000 : Int) .TRANSACTION 1000 = true := by decide
  have hpipe : ∀ (pt h : Str) (st : MemStore) (b : Bool) (st2 : MemStore),
      store_message_mem defaultSettings 500 st h (strOf "BANK") .TRANSACTION = (b, st2) →
      forward_message (fun _ _ => .ok pt) sha256hex (memStoreAt 500) send 1000
        (suppliedHashRequest h) st =
        (if b = false then
          (.response ⟨true, "TRANSACTION message already forwarded", none⟩, st2, false)
         else
          match send pt (strOf "BANK") .TRANSACTION with
          | none => (.httpError 500 "Failed to send WhatsApp message", st2, true)
          | some mid =>
            (.response ⟨true, "TRANSACTION message forwarded successfully", some mid⟩,
              st2, true)) := by
    intro pt h st b st2 hst
    cases b with
    | false =>
      simp [forward_message, suppliedHashRequest, memStoreAt, hfr, mtValue, hst]
    | true =>
      simp [forward_message, suppliedHashRequest, memStoreAt, hfr, mtValue, hst]
  have hsA : ∀ (h s : Str), store_message_mem defaultSettings 500 [] h s .TRANSACTION =
      (true, [(h, ⟨s, .TRANSACTION, 1100⟩)]) := fun h s => rfl
  have hsB : ∀ (h s : Str), store_message_mem defaultSettings 500
      [(h, ⟨strOf "BANK", .TRANSACTION, 1100⟩)] h s .TRANSACTION =
      (false, [(h, ⟨strOf "BANK", .TRANSACTION, 1100⟩)]) := by
    intro h s
    simp [store_message_mem, mem_exists, cleanup_expired, store_resume]
  have hsC : ∀ (s : Str), store_message_mem defaultSettings 500
      [(h1, ⟨strOf "BANK", .TRANSACTION, 1100⟩)] h2 s .TRANSACTION =
      (true, [(h2, ⟨s, .TRANSACTION, 1100⟩),
        (h1, ⟨strOf "BANK", .TRANSACTION, 1100⟩)]) := by
    intro s
    simp [store_message_mem, mem_exists, cleanup_expired, store_resume, mem_insert,
      hne, get_ttl_for_type, defaultSettings]
  have hstate1 : (forward_message (fun _ _ => .ok pt1) sha256hex (memStoreAt 500) send
      1000 (suppliedHashRequest fp) []).2.1 =
      [(fp, ⟨strOf "BANK", .TRANSACTION, 1100⟩)] := by
    rw [hpipe pt1 fp [] true [(fp, ⟨strOf "BANK", .TRANSACTION, 1100⟩)]
      (hsA fp (strOf "BANK"))]
    cases send pt1 (strOf "BANK") .TRANSACTION <;> rfl
  have hstate2 : (forward_message (fun _ _ => .ok pt1) sha256hex (memStoreAt 500) send
      1000 (suppliedHashRequest h1) []).2.1 =
      [(h1, ⟨strOf "BANK", .TRANSACTION, 1100⟩)] := by
    rw [hpipe pt1 h1 [] true [(h1, ⟨strOf "BANK", .TRANSACTION, 1100⟩)]
      (hsA h1 (strOf "BANK"))]
    cases send pt1 (strOf "BANK") .TRANSACTION <;> rfl
  refine ⟨⟨?_, ?_⟩, ?_, ?_⟩
  · rw [hstate1, hpipe pt2 fp _ false [(fp, ⟨strOf "BANK", .TRANSACTION, 1100⟩)]
      (hsB fp (strOf "BANK"))]
    rfl
  · rw [hstate1, hpipe pt2 fp _ false [(fp, ⟨strOf "BANK", .TRANSACTION, 1100⟩)]
      (hsB fp (strOf "BANK"))]
    rfl
  · rw [hpipe pt1 h1 [] true [(h1, ⟨strOf "BANK", .TRANSACTION, 1100⟩)]
      (hsA h1 (strOf "BANK"))]
    cases send pt1 (strOf "BANK") .TRANSACTION <;> rfl
  · rw [hstate2, hpipe pt1 h2 _ true [(h2, ⟨strOf "BANK", .TRANSACTION, 1100⟩),
      (h1, ⟨strOf "BANK", .TRANSACTION, 1100⟩)] (hsC (strOf "BANK"))]
    cases send pt1 (strOf "BANK") .TRANSACTION <;> rfl

/-- Claim C10 witness: the theorem applied at concrete plaintexts [7], [8],
shared hash [1] and distinct hashes [2] and [3], with the identity digest
function and an always-succeeding send. -/
theorem claim_C10_witness :
    ((forward_message (fun _ _ => .ok [8]) (fun s => s) (memStoreAt 500)
        (fun _ _ _ => some "id") 1000 (suppliedHashRequest [1])
        (forward_message (fun _ _ => .ok [7]) (fun s => s) (memStoreAt 500)
          (fun _ _ _ => some "id") 1000 (suppliedHashRequest [1]) []).2.1).1 =
      .response ⟨true, "TRANSACTION message already forwarded", none⟩ ∧
     (forward_message (fun _ _ => .ok [8]) (fun s => s) (memStoreAt 500)
        (fun _ _ _ => some "id") 1000 (suppliedHashRequest [1])
        (forward_message (fun _ _ => .ok [7]) (fun s => s) (memStoreAt 500)
          (fun _ _ _ => some "id") 1000 (suppliedHashRequest [1]) []).2.1).2.2 = false) ∧
    ((forward_message (fun _ _ => .ok [7]) (fun s => s) (memStoreAt 500)
        (fun _ _ _ => some "id") 1000 (suppliedHashRequest [2]) []).2.2 = true ∧
     (forward_message (fun _ _ => .ok [7]) (fun s => s) (memStoreAt 500)
        (fun _ _ _ => some "id") 1000 (suppliedHashRequest [3])
        (forward_message (fun _ _ => .ok [7]) (fun s => s) (memStoreAt 500)
          (fun _ _ _ => some "id") 1000 (suppliedHashRequest [2]) []).2.1).2.2 = true) :=
  claim_C10_supplied_hash_trusted [7] [8] [1] [2] [3] (fun s => s)
    (fun _ _ _ => some "id") (by decide)
